import Mathlib

/-!
Verification of the imgchest.com extractor module
(`gallery_dl/extractor/imagechest.py`).

The module is shallowly embedded: Python values flowing through the
extractor (decoded JSON plus the datetime objects produced by the
API-mode metadata step) become the inductive type `PyVal`; Python
dictionaries become insertion-ordered association lists; fallible
operations become `Option`/`Except`; the API client's request loop
becomes a recursion over a list of scripted HTTP responses that also
emits a trace of observable events (requests, waits, body parses,
debug logs).
-/

set_option maxRecDepth 10000

/-- Python values handled by the extractor: JSON values (with floats
kept as their source literal, since the module never computes with
them) plus the structured timestamps produced by datetime parsing. -/
inductive PyVal where
  | null
  | bool (b : Bool)
  | num (n : Int)
  | floatLit (lit : String)
  | str (s : String)
  | arr (elems : List PyVal)
  | obj (fields : List (String × PyVal))
  | datetime (source : String)

/-- Python exception classes that the module's control flow distinguishes. -/
inductive PyErr where
  | typeError
  | keyError
  | attributeError
  deriving DecidableEq

/-- Exceptions raised by the page-scrape gallery resolver. -/
inductive ExtErr where
  | notFound
  | jsonDecodeError
  deriving DecidableEq

/-- Lookup in an insertion-ordered association list (Python dict read). -/
def getKey : List (String × PyVal) → String → Option PyVal
  | [], _ => none
  | (k', v) :: rest, k => if k' == k then some v else getKey rest k

/-- Python dict assignment: replace the value at the first matching key
in place, or append the pair when the key is absent. -/
def setKey : List (String × PyVal) → String → PyVal → List (String × PyVal)
  | [], k, v => [(k, v)]
  | (k', v') :: rest, k, v =>
    if k' == k then (k', v) :: rest else (k', v') :: setKey rest k v

/-- Python `d[k]` subscription on an arbitrary value: a non-dict raises
TypeError, a missing key raises KeyError. -/
def pyIndexE : PyVal → String → Except PyErr PyVal
  | .obj fields, k =>
    match getKey fields k with
    | some v => .ok v
    | none => .error .keyError
  | _, _ => .error .typeError

/-- Subscription with the exception absorbed, for code sitting inside a
blanket `except` block. -/
def pyGet (v : PyVal) (k : String) : Option PyVal :=
  match pyIndexE v k with
  | .ok x => some x
  | .error _ => none

/-- Two-level subscription `v["a"]["b"]` with exceptions absorbed. -/
def pyGet2 (v : PyVal) (a b : String) : Option PyVal :=
  (pyGet v a).bind (fun w => pyGet w b)

/-- Three-level subscription `v["a"]["b"]["c"]` with exceptions absorbed. -/
def pyGet3 (v : PyVal) (a b c : String) : Option PyVal :=
  (pyGet2 v a b).bind (fun w => pyGet w c)

/-- Python `d[k] = x` on an arbitrary value: a non-dict raises TypeError. -/
def setKeyE : PyVal → String → PyVal → Except PyErr PyVal
  | .obj fields, k, v => .ok (.obj (setKey fields k v))
  | _, _, _ => .error .typeError

/-- Python `d.pop(k, None)` / `d.pop(k)` key removal (the returned value
is recovered separately with `getKey` where needed). -/
def popAllKey : PyVal → String → PyVal
  | .obj fields, k => .obj (fields.filter (fun kv => !(kv.1 == k)))
  | other, _ => other

/-- Python iteration `for x in v`: lists yield their elements, dicts
their keys, strings their characters; other values raise TypeError. -/
def pyIterate : PyVal → Except PyErr (List PyVal)
  | .arr elems => .ok elems
  | .obj fields => .ok (fields.map (fun kv => PyVal.str kv.1))
  | .str s => .ok (s.data.map (fun c => PyVal.str (String.mk [c])))
  | _ => .error .typeError

/-- Whether `pat` is an initial segment of `s` (character lists). -/
def leadsWith : List Char → List Char → Bool
  | [], _ => true
  | _ :: _, [] => false
  | p :: ps, c :: cs => p == c && leadsWith ps cs

/-- Whether `pat` occurs as a contiguous substring of `s`
(Python's `pat in s`). -/
def containsSub (pat : List Char) : List Char → Bool
  | [] => pat.isEmpty
  | c :: cs => leadsWith pat (c :: cs) || containsSub pat cs

/-- Python `pat in s` on strings. -/
def containsStr (pat s : String) : Bool :=
  containsSub pat.data s.data

/-- Index of the first occurrence of `pat` in `s` (Python `str.index`). -/
def findSub (pat : List Char) : List Char → Option Nat
  | [] => if pat.isEmpty then some 0 else none
  | c :: cs =>
    if leadsWith pat (c :: cs) then some 0
    else (findSub pat cs).map (fun n => n + 1)

/-- JSON whitespace. -/
def isWsChar (c : Char) : Bool :=
  c == ' ' || c == '\t' || c == '\n' || c == '\r'

/-- Drop leading JSON whitespace. -/
def skipWs : List Char → List Char
  | [] => []
  | c :: cs => if isWsChar c then skipWs cs else c :: cs

/-- ASCII decimal digit test. -/
def isDigitCh (c : Char) : Bool :=
  '0' ≤ c && c ≤ '9'

/-- Split a character list into its longest digit head and the rest. -/
def takeDigits : List Char → List Char × List Char
  | [] => ([], [])
  | c :: cs =>
    if isDigitCh c then
      let (d, r) := takeDigits cs
      (c :: d, r)
    else ([], c :: cs)

/-- Decimal value of a digit list. -/
def digitsToNat (ds : List Char) : Nat :=
  ds.foldl (fun acc c => acc * 10 + (c.toNat - 48)) 0

/-- Hex value of one character, when it is a hex digit. -/
def hexDigitVal (c : Char) : Option Nat :=
  if isDigitCh c then some (c.toNat - 48)
  else if 'a' ≤ c && c ≤ 'f' then some (c.toNat - 87)
  else if 'A' ≤ c && c ≤ 'F' then some (c.toNat - 55)
  else none

/-- Four hex digits, as for a JSON `\uXXXX` escape. -/
def parseHex4 : List Char → Option (Nat × List Char)
  | a :: b :: c :: d :: rest =>
    match hexDigitVal a, hexDigitVal b, hexDigitVal c, hexDigitVal d with
    | some x, some y, some z, some w => some (((x * 16 + y) * 16 + z) * 16 + w, rest)
    | _, _, _, _ => none
  | _ => none

/-- Body of a JSON string after the opening quote: returns the decoded
characters and the input following the closing quote. Unescaped control
characters are rejected, as `json.loads` does in strict mode. -/
def parseStringBody : Nat → List Char → Option (List Char × List Char)
  | 0, _ => none
  | _ + 1, [] => none
  | fuel + 1, c :: cs =>
    if c == '"' then some ([], cs)
    else if c == '\\' then
      match cs with
      | [] => none
      | e :: cs' =>
        let simpleEsc : Option Char :=
          if e == '"' then some '"'
          else if e == '\\' then some '\\'
          else if e == '/' then some '/'
          else if e == 'b' then some (Char.ofNat 8)
          else if e == 'f' then some (Char.ofNat 12)
          else if e == 'n' then some '\n'
          else if e == 'r' then some '\r'
          else if e == 't' then some '\t'
          else none
        match simpleEsc with
        | some d =>
          (parseStringBody fuel cs').map (fun p => (d :: p.1, p.2))
        | none =>
          if e == 'u' then
            match parseHex4 cs' with
            | some (n, rest) =>
              (parseStringBody fuel rest).map (fun p => (Char.ofNat n :: p.1, p.2))
            | none => none
          else none
    else if c.toNat < 32 then none
    else (parseStringBody fuel cs).map (fun p => (c :: p.1, p.2))

/-- Consume an expected literal; fails when the input does not start with it. -/
def expectChars (pat : List Char) (input : List Char) : Option (List Char) :=
  if leadsWith pat input then some (input.drop pat.length) else none

/-- A JSON number starting at the head of the input: an integer becomes
`PyVal.num`, a value with a fraction or exponent keeps its source text
as `PyVal.floatLit`. Leading-zero and bare-sign forms are rejected as
`json.loads` rejects them. -/
def parseNumber (input : List Char) : Option (PyVal × List Char) :=
  let (neg, rest1) :=
    match input with
    | '-' :: cs => (true, cs)
    | _ => (false, input)
  let (intDigits, rest2) := takeDigits rest1
  if intDigits.isEmpty then none
  else if intDigits.length > 1 && intDigits.headD '0' == '0' then none
  else
    let (fracDigits, rest3, fracOk) :=
      match rest2 with
      | '.' :: cs =>
        let (fd, r) := takeDigits cs
        (('.' :: fd : List Char), r, !fd.isEmpty)
      | _ => ([], rest2, true)
    let (expDigits, rest4, expOk) :=
      match rest3 with
      | e :: cs =>
        if e == 'e' || e == 'E' then
          match cs with
          | s :: cs' =>
            if s == '+' || s == '-' then
              let (ed, r) := takeDigits cs'
              ((e :: s :: ed : List Char), r, !ed.isEmpty)
            else
              let (ed, r) := takeDigits cs
              ((e :: ed : List Char), r, !ed.isEmpty)
          | [] => ([e], cs, false)
        else ([], rest3, true)
      | [] => ([], rest3, true)
    if !fracOk || !expOk then none
    else if fracDigits.isEmpty && expDigits.isEmpty then
      let n : Int := Int.ofNat (digitsToNat intDigits)
      some (.num (if neg then -n else n), rest2)
    else
      let lit := (if neg then ['-'] else []) ++ intDigits ++ fracDigits ++ expDigits
      some (.floatLit (String.mk lit), rest4)

mutual

/-- One JSON value starting at the head of the (whitespace-trimmed)
input; fuel bounds the recursion depth. -/
def parseVal : Nat → List Char → Option (PyVal × List Char)
  | 0, _ => none
  | fuel + 1, input =>
    match skipWs input with
    | [] => none
    | c :: cs =>
      if c == '"' then
        (parseStringBody (cs.length + 1) cs).map
          (fun p => (PyVal.str (String.mk p.1), p.2))
      else if c == '{' then
        match skipWs cs with
        | '}' :: r => some (.obj [], r)
        | _ => (parseMembers fuel [] cs).map (fun p => (PyVal.obj p.1, p.2))
      else if c == '[' then
        match skipWs cs with
        | ']' :: r => some (.arr [], r)
        | _ => (parseElems fuel [] cs).map (fun p => (PyVal.arr p.1, p.2))
      else if c == 't' then
        (expectChars ['r', 'u', 'e'] cs).map (fun r => (PyVal.bool true, r))
      else if c == 'f' then
        (expectChars ['a', 'l', 's', 'e'] cs).map (fun r => (PyVal.bool false, r))
      else if c == 'n' then
        (expectChars ['u', 'l', 'l'] cs).map (fun r => (PyVal.null, r))
      else if c == '-' || isDigitCh c then parseNumber (c :: cs)
      else none

/-- Members of a JSON object after the opening brace (or a separating
comma); duplicate keys overwrite, as in Python. -/
def parseMembers : Nat → List (String × PyVal) → List Char → Option (List (String × PyVal) × List Char)
  | 0, _, _ => none
  | fuel + 1, acc, input =>
    match skipWs input with
    | '"' :: cs =>
      match parseStringBody (cs.length + 1) cs with
      | none => none
      | some (key, r1) =>
        match skipWs r1 with
        | ':' :: r2 =>
          match parseVal fuel r2 with
          | none => none
          | some (v, r3) =>
            let acc' := setKey acc (String.mk key) v
            match skipWs r3 with
            | ',' :: r4 => parseMembers fuel acc' r4
            | '}' :: r4 => some (acc', r4)
            | _ => none
        | _ => none
    | _ => none

/-- Elements of a JSON array after the opening bracket (or a separating
comma). -/
def parseElems : Nat → List PyVal → List Char → Option (List PyVal × List Char)
  | 0, _, _ => none
  | fuel + 1, acc, input =>
    match parseVal fuel input with
    | none => none
    | some (v, r1) =>
      match skipWs r1 with
      | ',' :: r2 => parseElems fuel (acc ++ [v]) r2
      | ']' :: r2 => some (acc ++ [v], r2)
      | _ => none

end

/-- Python `json.loads`: one JSON document, with only trailing
whitespace allowed after it; `none` models a raised JSONDecodeError. -/
def loads (s : String) : Option PyVal :=
  match parseVal (2 * s.data.length + 2) s.data with
  | some (v, rest) => if (skipWs rest).isEmpty then some v else none
  | none => none

/-- Modelled from the spec: HTML entity-unescaping applied to the
embedded document before decoding (`gallery_dl.text.unescape`, which is
not under `src/`). Numeric character references and the core named
entities are translated; other ampersands pass through unchanged. -/
def unescapeList : Nat → List Char → List Char
  | 0, rest => rest
  | _ + 1, [] => []
  | fuel + 1, c :: cs =>
    if c == '&' then
      if leadsWith ['q', 'u', 'o', 't', ';'] cs then
        '"' :: unescapeList fuel (cs.drop 5)
      else if leadsWith ['a', 'm', 'p', ';'] cs then
        '&' :: unescapeList fuel (cs.drop 4)
      else if leadsWith ['l', 't', ';'] cs then
        '<' :: unescapeList fuel (cs.drop 3)
      else if leadsWith ['g', 't', ';'] cs then
        '>' :: unescapeList fuel (cs.drop 3)
      else if leadsWith ['a', 'p', 'o', 's', ';'] cs then
        Char.ofNat 39 :: unescapeList fuel (cs.drop 5)
      else
        match cs with
        | '#' :: 'x' :: ds =>
          let (hx, r) := ds.span (fun d => (hexDigitVal d).isSome)
          match r with
          | ';' :: r' =>
            if hx.isEmpty then '&' :: unescapeList fuel cs
            else Char.ofNat (hx.foldl (fun a d => a * 16 + ((hexDigitVal d).getD 0)) 0) ::
              unescapeList fuel r'
          | _ => '&' :: unescapeList fuel cs
        | '#' :: ds =>
          let (dg, r) := ds.span isDigitCh
          match r with
          | ';' :: r' =>
            if dg.isEmpty then '&' :: unescapeList fuel cs
            else Char.ofNat (digitsToNat dg) :: unescapeList fuel r'
          | _ => '&' :: unescapeList fuel cs
        | _ => '&' :: unescapeList fuel cs
    else c :: unescapeList fuel cs

/-- Entity-unescaping on strings. -/
def unescape (s : String) : String :=
  String.mk (unescapeList (s.data.length + 1) s.data)

/-- Modelled from the spec: one round of URL-decoding of the username
(`gallery_dl.text.unquote`, which is not under `src/`): each `%XY`
percent-escape becomes the character with that code. -/
def unquoteList : Nat → List Char → List Char
  | 0, rest => rest
  | _ + 1, [] => []
  | fuel + 1, c :: cs =>
    if c == '%' then
      match cs with
      | a :: b :: rest =>
        match hexDigitVal a, hexDigitVal b with
        | some x, some y => Char.ofNat (x * 16 + y) :: unquoteList fuel rest
        | _, _ => '%' :: unquoteList fuel cs
      | _ => '%' :: unquoteList fuel cs
    else c :: unquoteList fuel cs

/-- URL-decoding on strings. -/
def unquote (s : String) : String :=
  String.mk (unquoteList (s.data.length + 1) s.data)

/-- Modelled from the spec: the PageDataExtractor's attribute search
(`gallery_dl.text.extr`, which is not under `src/`): locate the first
occurrence of `b` in `txt` and return the text up to the next
occurrence of `e`; `none` when either marker is absent. -/
def extrOpt (txt b e : String) : Option String :=
  match findSub b.data txt.data with
  | none => none
  | some i =>
    let tail := txt.data.drop (i + b.data.length)
    match findSub e.data tail with
    | none => none
    | some j => some (String.mk (tail.take j))

/-- The raw `data-page` attribute value of a page body, when present. -/
def dataPageRaw (page : String) : Option String :=
  extrOpt page "data-page=\"" "\""

/-- The attribute value with the extractor's fallback: an absent (or
unterminated) attribute yields the default `"\x7b\x7d"` document. -/
def dataPageValue (page : String) : String :=
  (dataPageRaw page).getD "\x7b\x7d"

/-- `ImagechestGalleryExtractor._retrieve_page_data`: extract the
`data-page` attribute, entity-unescape it, and JSON-decode it; `none`
models the JSONDecodeError raised on a malformed document. -/
def extractPageData (page : String) : Option PyVal :=
  loads (unescape (dataPageValue page))

/-- The fixed allow-list of scalar gallery fields copied by the
page-scrape `metadata`. -/
def galleryAttrs : List String :=
  ["id", "slug", "status", "title", "nsfw", "score", "comments",
   "upvotes", "downvotes", "favorites", "views", "created"]

/-- One step of the allow-list loop: `metadata[attr] =
page_data["props"]["post"][attr]`, with any exception suppressed. -/
def attrStep (pd : PyVal) (acc : List (String × PyVal)) (attr : String) : List (String × PyVal) :=
  match pyGet3 pd "props" "post" attr with
  | some v => setKey acc attr v
  | none => acc

/-- Python `",".join(v)`: joins strings of a list (or a string's
characters, or a dict's keys); any non-string element raises TypeError,
modelled as `none`. -/
def pyStrOf : PyVal → Option String
  | .str s => some s
  | _ => none

/-- Comma-joining as used for the `tags` field. -/
def pyJoinComma : PyVal → Option String
  | .arr elems => (elems.mapM pyStrOf).map (String.intercalate ",")
  | .str s => some (String.intercalate "," (s.data.map (fun c => String.mk [c])))
  | .obj fields => some (String.intercalate "," (fields.map (fun kv => kv.1)))
  | _ => none

/-- The page-scrape metadata mapping built from a decoded `data-page`
document: `gallery_id` first, then each allow-listed field that can be
extracted, then the comma-joined `tags` when that extraction succeeds. -/
def metadataFromPageData (gid : String) (pd : PyVal) : List (String × PyVal) :=
  let m := galleryAttrs.foldl (attrStep pd) [("gallery_id", PyVal.str gid)]
  match pyGet3 pd "props" "post" "tags" with
  | none => m
  | some tv =>
    match pyJoinComma tv with
    | none => m
    | some s => setKey m "tags" (PyVal.str s)

/-- The page-scrape image list from a decoded `data-page` document:
`(file["link"], None)` pairs from `props.post.files`, with any failure
inside the comprehension collapsing the whole result to `[]`. -/
def imagesFromPageData (pd : PyVal) : List (PyVal × Option PyVal) :=
  match pyGet3 pd "props" "post" "files" with
  | none => []
  | some files =>
    match pyIterate files with
    | .error _ => []
    | .ok elems =>
      match elems.mapM (fun f => pyGet f "link") with
      | some links => links.map (fun l => (l, none))
      | none => []

/-- `ImagechestGalleryExtractor.metadata` (page-scrape mode): a body
containing "Not Found" raises NotFoundError before the page data is
retrieved; a malformed embedded document raises the decode error;
otherwise the metadata mapping is built field by field. -/
def metadataPage (gid page : String) : Except ExtErr (List (String × PyVal)) :=
  if containsStr "Not Found" page then .error .notFound
  else
    match extractPageData page with
    | none => .error .jsonDecodeError
    | some pd => .ok (metadataFromPageData gid pd)

/-- `ImagechestGalleryExtractor.images` (page-scrape mode): the page
data is retrieved outside the suppressing block, so a malformed
embedded document raises; structural failures afterwards yield `[]`. -/
def imagesPage (page : String) : Except ExtErr (List (PyVal × Option PyVal)) :=
  match extractPageData page with
  | none => .error .jsonDecodeError
  | some pd => .ok (imagesFromPageData pd)

/-- Modelled from the spec: `gallery_dl.text.parse_datetime` (not under
`src/`) converts a created string in format `%Y-%m-%dT%H:%M:%S.%fZ`
into a structured timestamp; a non-string input yields None. -/
def parseDatetimePy : PyVal → PyVal
  | .str s => .datetime s
  | _ => .null

/-- The mutation loop `for img in post["images"]: img["date"] = ...`:
each element must be a dict carrying "created" (the subscript on the
right-hand side is evaluated first, so a non-dict raises TypeError and
a dict without the key raises KeyError). -/
def dateImages : List PyVal → Except PyErr (List PyVal)
  | [] => .ok []
  | img :: rest =>
    match pyIndexE img "created" with
    | .error e => .error e
    | .ok c =>
      match setKeyE img "date" (parseDatetimePy c) with
      | .error e => .error e
      | .ok img' =>
        match dateImages rest with
        | .error e => .error e
        | .ok rest' => .ok (img' :: rest')

/-- Python mutates the image dicts in place, so only a list value has
the dated elements written back into the post; an iterable non-list is
left unchanged. -/
def writeBack : PyVal → List PyVal → PyVal
  | .arr _, dated => .arr dated
  | other, _ => other

/-- `ImagechestGalleryExtractor._metadata_api` applied to the post
returned by the API client: sets the post's "date", dates every image,
injects `gallery_id`, drops `image_count`, and pops the (mutated) image
list out of the post. Returns the post together with the popped value
that the instance stashes in `_image_list`. Since Python mutates the
image dicts in place, only a list value writes the dated elements back;
an iterable non-list leaves the post's value unchanged. -/
def metadataApi (gid : String) (post : PyVal) : Except PyErr (PyVal × PyVal) :=
  match pyIndexE post "created" with
  | .error e => .error e
  | .ok created =>
    match setKeyE post "date" (parseDatetimePy created) with
    | .error e => .error e
    | .ok post1 =>
      match pyIndexE post1 "images" with
      | .error e => .error e
      | .ok images =>
        match pyIterate images with
        | .error e => .error e
        | .ok elems =>
          match dateImages elems with
          | .error e => .error e
          | .ok dated =>
            match setKeyE post1 "images" (writeBack images dated) with
            | .error e => .error e
            | .ok post2 =>
              match setKeyE post2 "gallery_id" (.str gid) with
              | .error e => .error e
              | .ok post3 =>
                .ok (popAllKey (popAllKey post3 "image_count") "images",
                  writeBack images dated)

/-- The API-mode resolver instance: the gallery id fixed at
construction and the `_image_list` attribute, which does not exist
until `_metadata_api` has run. -/
structure GState where
  gallery_id : String
  image_list : Option PyVal

/-- A freshly constructed API-mode resolver: no `_image_list` yet. -/
def initGState (gid : String) : GState :=
  { gallery_id := gid, image_list := none }

/-- Run `_metadata_api` on an instance: on success the popped image
list is stashed in `_image_list` and the post is returned. -/
def runMetadataApi (st : GState) (post : PyVal) : Except PyErr (PyVal × GState) :=
  match metadataApi st.gallery_id post with
  | .ok (p, stash) => .ok (p, { st with image_list := some stash })
  | .error e => .error e

/-- The comprehension `[(img["link"], img) for img in self._image_list]`
over already-iterated elements. -/
def linkPairs : List PyVal → Except PyErr (List (PyVal × PyVal))
  | [] => .ok []
  | img :: rest =>
    match pyIndexE img "link" with
    | .error e => .error e
    | .ok l =>
      match linkPairs rest with
      | .error e => .error e
      | .ok ps => .ok ((l, img) :: ps)

/-- `ImagechestGalleryExtractor._images_api`: reading `_image_list`
before `_metadata_api` has run raises AttributeError; otherwise the
stashed value is iterated into `(link, image)` pairs. -/
def runImagesApi (st : GState) : Except PyErr (List (PyVal × PyVal)) :=
  match st.image_list with
  | none => .error .attributeError
  | some lv =>
    match pyIterate lv with
    | .error e => .error e
    | .ok elems => linkPairs elems

/-- Every observable action of `ImagechestAPI._call`: issuing the HTTP
request (with its URL and headers; redirects are disabled and the
request is non-fatal, which is why error statuses come back as
responses), the fixed rate-limit wait, decoding a response body, and
the debug log of a failing body. -/
inductive ApiEvent where
  | request (url : String) (headers : List (String × String))
  | wait (seconds : Nat)
  | parseBody (body : String)
  | logDebug (body : String)
  deriving DecidableEq

/-- How a `_call` invocation ends: the "data" field on success;
AuthenticationError on a redirect status; StopExtraction on any other
failure status; an uncaught decode/subscript exception from
`response.json()["data"]`; or exhaustion of the scripted responses
while the loop would still be running. -/
inductive CallResult where
  | success (d : PyVal)
  | authError (msg : String)
  | stopExtraction (msg : String)
  | pyError
  | exhausted

/-- A scripted HTTP response: its status code and raw body text. -/
structure HttpResponse where
  status : Nat
  body : String

/-- `response.json()["data"]`: decode the body and take its "data"
field; `none` models the uncaught exception on either step. -/
def responseData (body : String) : Option PyVal :=
  (loads body).bind (fun j => pyGet j "data")

/-- The `while True` loop of `ImagechestAPI._call` over scripted
responses: status < 300 parses the body and returns its "data" field;
300 ≤ status < 400 raises AuthenticationError; 429 waits 600 seconds
and retries; anything else logs the body at debug level and raises
StopExtraction. -/
def callLoop (url : String) (headers : List (String × String)) :
    List HttpResponse → List ApiEvent × CallResult
  | [] => ([], .exhausted)
  | r :: rest =>
    if r.status < 300 then
      ([.request url headers, .parseBody r.body],
       match responseData r.body with
       | some d => .success d
       | none => .pyError)
    else if r.status < 400 then
      ([.request url headers], .authError "Invalid API access token")
    else if r.status == 429 then
      let tail := callLoop url headers rest
      (.request url headers :: .wait 600 :: tail.1, tail.2)
    else
      ([.request url headers, .logDebug r.body],
       .stopExtraction "API request failed")

/-- The API client's base URL. -/
def apiRoot : String := "https://api.imgchest.com"

/-- The bearer-token headers sent with every API request. -/
def authHeaders (accessToken : String) : List (String × String) :=
  [("Authorization", "Bearer " ++ accessToken)]

/-- `ImagechestAPI._call`: the url is the root plus the endpoint and
every iteration reissues the identical request. -/
def apiCall (accessToken endpoint : String) (responses : List HttpResponse) :
    List ApiEvent × CallResult :=
  callLoop (apiRoot ++ endpoint) (authHeaders accessToken) responses

/-- `ImagechestAPI.post`. -/
def apiPost (accessToken postId : String) (responses : List HttpResponse) :
    List ApiEvent × CallResult :=
  apiCall accessToken ("/v1/post/" ++ postId) responses

/-- `ImagechestAPI.file`. -/
def apiFile (accessToken fileId : String) (responses : List HttpResponse) :
    List ApiEvent × CallResult :=
  apiCall accessToken ("/v1/file/" ++ fileId) responses

/-- `ImagechestAPI.user`. -/
def apiUser (accessToken username : String) (responses : List HttpResponse) :
    List ApiEvent × CallResult :=
  apiCall accessToken ("/v1/user/" ++ username) responses

/-- The delegate-resolver annotation written into each yielded gallery
(`gallery["_extractor"] = ImagechestGalleryExtractor`); the class
reference is represented by its name. -/
def extractorTag : PyVal := PyVal.str "ImagechestGalleryExtractor"

/-- The query parameters of one `/api/posts` request: the page cursor
plus the fixed sort/tag/q/nsfw values and the URL-decoded username. -/
def itemsParams (user : String) (page : Nat) : List (String × String) :=
  [("page", toString page), ("sort", "new"), ("tag", ""), ("q", ""),
   ("username", unquote user), ("nsfw", "true")]

/-- Outcome of one response inside `ImagechestUserExtractor.items`:
continue to the next page with these yields; stop silently (the
TypeError/KeyError from `["data"]` is caught); propagate an uncaught
JSON decode error from `.json()` (a ValueError, which the
`except (TypeError, KeyError)` clause does not catch); or propagate an
uncaught exception raised inside the yield loop, which sits outside
the `try` block. -/
inductive StepRes where
  | next (yields : List (PyVal × PyVal))
  | stop
  | uncaughtDecode
  | uncaughtYield (yields : List (PyVal × PyVal))

/-- Whether a step continues the pagination loop. -/
def isNextStep : StepRes → Bool
  | .next _ => true
  | _ => false

/-- How a whole `items` run ends. -/
inductive ItemsEnd where
  | exhausted
  | stopped
  | decodeError
  | yieldError
  deriving DecidableEq

/-- The end state produced by the last processed response. -/
def endOfStep : StepRes → ItemsEnd
  | .next _ => .exhausted
  | .stop => .stopped
  | .uncaughtDecode => .decodeError
  | .uncaughtYield _ => .yieldError

/-- The body of the `for gallery in data` loop: tag each gallery with
the delegate resolver, then yield `(gallery["link"], gallery)`; the
first failure aborts the run with the yields already delivered. -/
def processGalleries : List PyVal → List (PyVal × PyVal) × Bool
  | [] => ([], true)
  | g :: gs =>
    match setKeyE g "_extractor" extractorTag with
    | .error _ => ([], false)
    | .ok g' =>
      match pyIndexE g' "link" with
      | .error _ => ([], false)
      | .ok l =>
        let tail := processGalleries gs
        ((l, g') :: tail.1, tail.2)

/-- Processing of one `/api/posts` response body inside `items`. -/
def itemsStep (body : String) : StepRes :=
  match loads body with
  | none => .uncaughtDecode
  | some j =>
    match pyIndexE j "data" with
    | .error _ => .stop
    | .ok data =>
      match pyIterate data with
      | .error _ => .uncaughtYield []
      | .ok gals =>
        match processGalleries gals with
        | (ys, true) => .next ys
        | (ys, false) => .uncaughtYield ys

/-- The pagination loop of `ImagechestUserExtractor.items` over
scripted response bodies: records the parameters of every request
issued (the page cursor incremented by one after each successful
response), the yielded queue references, and how the run ended. -/
def itemsLoop (user : String) (page : Nat) :
    List String → List (List (String × String)) × List (PyVal × PyVal) × ItemsEnd
  | [] => ([], [], .exhausted)
  | b :: rest =>
    match itemsStep b with
    | .next ys =>
      let tail := itemsLoop user (page + 1) rest
      (itemsParams user page :: tail.1, ys ++ tail.2.1, tail.2.2)
    | .stop => ([itemsParams user page], [], .stopped)
    | .uncaughtDecode => ([itemsParams user page], [], .decodeError)
    | .uncaughtYield ys => ([itemsParams user page], ys, .yieldError)

/-- `ImagechestUserExtractor.items`: pagination starts at page 1. -/
def userItems (user : String) (responses : List String) :
    List (List (String × String)) × List (PyVal × PyVal) × ItemsEnd :=
  itemsLoop user 1 responses

/-- Consecutive page numbers `start, start+1, ..., start+n-1`. -/
def pageRange (start : Nat) : Nat → List Nat
  | 0 => []
  | n + 1 => start :: pageRange (start + 1) n

/-- The gallery-id capture group of the URL pattern
`/p/([A-Za-z0-9]\x7b11\x7d)`: eleven ASCII alphanumerics. -/
def isGalleryId (s : String) : Bool :=
  s.data.length == 11 &&
    s.data.all (fun c =>
      ('A' ≤ c && c ≤ 'Z') || ('a' ≤ c && c ≤ 'z') || ('0' ≤ c && c ≤ '9'))

/-- Whether an image dict carries a "link" entry. -/
def hasLink (img : PyVal) : Bool :=
  match pyIndexE img "link" with
  | .ok _ => true
  | .error _ => false

/-- The "link" entry of an image dict (null when absent). -/
def linkOf (img : PyVal) : PyVal :=
  match pyIndexE img "link" with
  | .ok l => l
  | .error _ => PyVal.null

/-- The post used to witness the C9 and C7 theorems, carrying an
upstream `image_count`. -/
def apiPostSample : PyVal :=
  PyVal.obj
    [("created", PyVal.str "2023-01-02T03:04:05.000000Z"),
     ("images", PyVal.arr [PyVal.obj
        [("link", PyVal.str "https://a/1.png"),
         ("created", PyVal.str "2023-01-02T03:04:06.000000Z")]]),
     ("image_count", PyVal.num 1),
     ("title", PyVal.str "t")]

/-- The post mapping produced for `apiPostSample`. -/
def apiPostSampleResult : PyVal :=
  PyVal.obj
    [("created", PyVal.str "2023-01-02T03:04:05.000000Z"),
     ("title", PyVal.str "t"),
     ("date", PyVal.datetime "2023-01-02T03:04:05.000000Z"),
     ("gallery_id", PyVal.str "abcdefghijk")]

/-- The dated image stashed for `apiPostSample`. -/
def apiPostSampleImage : PyVal :=
  PyVal.obj
    [("link", PyVal.str "https://a/1.png"),
     ("created", PyVal.str "2023-01-02T03:04:06.000000Z"),
     ("date", PyVal.datetime "2023-01-02T03:04:06.000000Z")]

/-- The embedded page document used to witness the C8 tags case. -/
def pdTagsSample : PyVal :=
  PyVal.obj [("props", PyVal.obj [("post", PyVal.obj
    [("title", PyVal.str "T"),
     ("tags", PyVal.arr [PyVal.str "a", PyVal.str "b", PyVal.str "c"])])])]

/-- The embedded post of `pdTagsSample`. -/
def postTagsSample : PyVal :=
  PyVal.obj
    [("title", PyVal.str "T"),
     ("tags", PyVal.arr [PyVal.str "a", PyVal.str "b", PyVal.str "c"])]

/-- The embedded page document used to witness the C8 no-tags case. -/
def pdNoTagsSample : PyVal :=
  PyVal.obj [("props", PyVal.obj [("post", PyVal.obj [("title", PyVal.str "T")])])]

theorem getKey_setKey_self (m : List (String × PyVal)) (k : String) (v : PyVal) :
    getKey (setKey m k v) k = some v := by
  induction m with
  | nil => simp [setKey, getKey]
  | cons kv rest ih =>
    obtain ⟨k', v'⟩ := kv
    by_cases h : k' = k
    · simp [setKey, getKey, h]
    · simp only [setKey, getKey, beq_iff_eq, if_neg h]
      exact ih

theorem getKey_setKey_ne (m : List (String × PyVal)) (k k' : String) (v : PyVal)
    (h : k' ≠ k) : getKey (setKey m k v) k' = getKey m k' := by
  induction m with
  | nil => simp [setKey, getKey, beq_iff_eq, Ne.symm h]
  | cons kv rest ih =>
    obtain ⟨a, b⟩ := kv
    by_cases ha : a = k
    · subst ha
      simp [setKey, getKey, beq_iff_eq, Ne.symm h]
    · simp only [setKey, getKey, beq_iff_eq, if_neg ha]
      by_cases hb : a = k'
      · simp [hb]
      · simp only [if_neg hb]
        exact ih

theorem getKey_filterOut_self (fields : List (String × PyVal)) (k : String) :
    getKey (fields.filter (fun kv => !(kv.1 == k))) k = none := by
  induction fields with
  | nil => simp [getKey]
  | cons kv rest ih =>
    obtain ⟨a, b⟩ := kv
    rw [List.filter_cons]
    by_cases ha : a = k
    · simpa [ha] using ih
    · have hcond : (!((a, b).1 == k)) = true := by simp [ha]
      rw [if_pos hcond]
      simpa [getKey, ha] using ih

theorem getKey_filterOut_ne (fields : List (String × PyVal)) (k k' : String)
    (h : k' ≠ k) : getKey (fields.filter (fun kv => !(kv.1 == k))) k' = getKey fields k' := by
  induction fields with
  | nil => simp
  | cons kv rest ih =>
    obtain ⟨a, b⟩ := kv
    rw [List.filter_cons]
    by_cases ha : a = k
    · subst ha
      simpa [getKey, beq_iff_eq, Ne.symm h] using ih
    · have hcond : (!((a, b).1 == k)) = true := by simp [ha]
      rw [if_pos hcond]
      by_cases hb : a = k'
      · simp [getKey, hb]
      · simpa [getKey, hb] using ih

theorem pyGet_setKeyE_self (v v' : PyVal) (k : String) (x : PyVal)
    (h : setKeyE v k x = .ok v') : pyGet v' k = some x := by
  cases v with
  | obj fields =>
    simp only [setKeyE, Except.ok.injEq] at h
    subst h
    simp [pyGet, pyIndexE, getKey_setKey_self]
  | null => exact absurd h (by simp [setKeyE])
  | bool b => exact absurd h (by simp [setKeyE])
  | num n => exact absurd h (by simp [setKeyE])
  | floatLit l => exact absurd h (by simp [setKeyE])
  | str s => exact absurd h (by simp [setKeyE])
  | arr elems => exact absurd h (by simp [setKeyE])
  | datetime s => exact absurd h (by simp [setKeyE])

theorem pyGet_setKeyE_ne (v v' : PyVal) (k k' : String) (x : PyVal)
    (h : setKeyE v k x = .ok v') (hne : k' ≠ k) : pyGet v' k' = pyGet v k' := by
  cases v with
  | obj fields =>
    simp only [setKeyE, Except.ok.injEq] at h
    subst h
    simp [pyGet, pyIndexE, getKey_setKey_ne _ _ _ _ hne]
  | null => exact absurd h (by simp [setKeyE])
  | bool b => exact absurd h (by simp [setKeyE])
  | num n => exact absurd h (by simp [setKeyE])
  | floatLit l => exact absurd h (by simp [setKeyE])
  | str s => exact absurd h (by simp [setKeyE])
  | arr elems => exact absurd h (by simp [setKeyE])
  | datetime s => exact absurd h (by simp [setKeyE])

theorem pyGet_popAllKey_self (v : PyVal) (k : String) :
    pyGet (popAllKey v k) k = none := by
  cases v <;> simp [popAllKey, pyGet, pyIndexE, getKey_filterOut_self]

theorem pyGet_popAllKey_ne (v : PyVal) (k k' : String) (hne : k ≠ k') :
    pyGet (popAllKey v k') k = pyGet v k := by
  cases v <;> simp [popAllKey, pyGet, pyIndexE, getKey_filterOut_ne _ _ _ hne]

theorem getKey_attrFold (pd : PyVal) (attrs : List String)
    (acc : List (String × PyVal)) (k : String)
    (h : attrs.all (fun a => !(a == k)) = true) :
    getKey (attrs.foldl (attrStep pd) acc) k = getKey acc k := by
  induction attrs generalizing acc with
  | nil => rfl
  | cons a rest ih =>
    simp only [List.all_cons, Bool.and_eq_true, Bool.not_eq_true', beq_eq_false_iff_ne] at h
    rw [List.foldl_cons, ih _ (by simpa using h.2)]
    unfold attrStep
    cases pyGet3 pd "props" "post" a with
    | none => rfl
    | some v => exact getKey_setKey_ne _ _ _ _ (Ne.symm h.1)

theorem linkPairs_of_all (l : List PyVal) (h : l.all hasLink = true) :
    linkPairs l = .ok (l.map (fun img => (linkOf img, img))) := by
  induction l with
  | nil => rfl
  | cons img rest ih =>
    simp only [List.all_cons, Bool.and_eq_true] at h
    cases hE : pyIndexE img "link" with
    | error e => simp [hasLink, hE] at h
    | ok lk =>
      simp only [linkPairs, hE, ih h.2, List.map_cons]
      simp [linkOf, hE]

theorem pageDefault_results (gid page : String)
    (h1 : containsStr "Not Found" page = false)
    (h2 : dataPageValue page = "\x7b\x7d") :
    metadataPage gid page = .ok [("gallery_id", PyVal.str gid)] ∧
    imagesPage page = .ok [] := by
  have hpd : extractPageData page = some (PyVal.obj []) := by
    unfold extractPageData
    rw [h2]
    rfl
  constructor
  · simp only [metadataPage, h1, Bool.false_eq_true, if_false, hpd]
    rfl
  · simp only [imagesPage, hpd]
    rfl

/-- Claim C5: in page-scrape mode, any page body containing the
substring "Not Found" makes `metadata` raise the NotFound error before
any JSON parsing, whatever else (including a well-formed `data-page`
document) the body contains. -/
theorem metadataPage_not_found_before_parse (gid page : String)
    (h : containsStr "Not Found" page = true) :
    metadataPage gid page = .error .notFound := by
  simp [metadataPage, h]

/-- The C5 theorem at a body that also carries a well-formed embedded
document. -/
theorem metadataPage_not_found_before_parse_witness :
    containsStr "Not Found" "data-page=\"\x7b\x7d\" Not Found" = true ∧
    metadataPage "abcdefghijk" "data-page=\"\x7b\x7d\" Not Found" =
      Except.error ExtErr.notFound :=
  ⟨rfl, metadataPage_not_found_before_parse "abcdefghijk" "data-page=\"\x7b\x7d\" Not Found" rfl⟩

/-- Claim C6 as stated is false: containing the substring
`data-page="\x7b\x7d"` does not suffice, because the extractor reads the
first `data-page` attribute. On this body the first attribute holds the
malformed document `x`, so `metadata` and `images` raise the decode
error instead of returning `\x7b"gallery_id": id\x7d` and `[]`. -/
theorem emptyObject_attr_shadowed_counterexample :
    isGalleryId "abcdefghijk" = true ∧
    containsStr "data-page=\"\x7b\x7d\"" "data-page=\"x\" data-page=\"\x7b\x7d\"" = true ∧
    containsStr "Not Found" "data-page=\"x\" data-page=\"\x7b\x7d\"" = false ∧
    metadataPage "abcdefghijk" "data-page=\"x\" data-page=\"\x7b\x7d\"" =
      Except.error ExtErr.jsonDecodeError ∧
    imagesPage "data-page=\"x\" data-page=\"\x7b\x7d\"" =
      Except.error ExtErr.jsonDecodeError :=
  ⟨rfl, rfl, rfl, rfl, rfl⟩

/-- Claim C6 (amended): for every gallery id matching the pattern and
every body without "Not Found" whose extracted `data-page` attribute
value is `\x7b\x7d`, `metadata` returns exactly the mapping
`\x7b"gallery_id": id\x7d` and `images` returns exactly `[]`. -/
theorem emptyObject_attr_gallery_id_only (gid page : String)
    (_h0 : isGalleryId gid = true)
    (h1 : containsStr "Not Found" page = false)
    (h2 : dataPageValue page = "\x7b\x7d") :
    metadataPage gid page = .ok [("gallery_id", PyVal.str gid)] ∧
    imagesPage page = .ok [] :=
  pageDefault_results gid page h1 h2

/-- The C6 theorem at a concrete id and page. -/
theorem emptyObject_attr_gallery_id_only_witness :
    isGalleryId "abcdefghijk" = true ∧
    containsStr "Not Found" "<html data-page=\"\x7b\x7d\"></html>" = false ∧
    dataPageValue "<html data-page=\"\x7b\x7d\"></html>" = "\x7b\x7d" ∧
    (metadataPage "abcdefghijk" "<html data-page=\"\x7b\x7d\"></html>" =
        Except.ok [("gallery_id", PyVal.str "abcdefghijk")] ∧
      imagesPage "<html data-page=\"\x7b\x7d\"></html>" = Except.ok []) :=
  ⟨rfl, rfl, rfl,
    emptyObject_attr_gallery_id_only "abcdefghijk" "<html data-page=\"\x7b\x7d\"></html>"
      rfl rfl rfl⟩

/-- Claim C3 as stated is false: when the `data-page` attribute is
present but its value is not valid JSON, the decode error propagates
out of both `metadata` and `images` (the page data is retrieved outside
the suppressing blocks), instead of degrading to a mapping and `[]`. -/
theorem pageScrape_malformed_json_propagates :
    containsStr "Not Found" "data-page=\"x\"" = false ∧
    dataPageRaw "data-page=\"x\"" = some "x" ∧
    loads (unescape (dataPageValue "data-page=\"x\"")) = none ∧
    metadataPage "abcdefghijk" "data-page=\"x\"" = Except.error ExtErr.jsonDecodeError ∧
    imagesPage "data-page=\"x\"" = Except.error ExtErr.jsonDecodeError :=
  ⟨rfl, rfl, rfl, rfl, rfl⟩

/-- Claim C3 (amended): for every page body without "Not Found", an
absent `data-page` attribute degrades `metadata` to the mapping
`\x7b"gallery_id": id\x7d` and `images` to `[]`; a present attribute whose
value is not valid JSON makes both `metadata` and `images` propagate
the JSON decode error. -/
theorem pageScrape_missing_attr_degrades_malformed_raises (gid page : String)
    (h1 : containsStr "Not Found" page = false) :
    (dataPageRaw page = none →
      metadataPage gid page = .ok [("gallery_id", PyVal.str gid)] ∧
      imagesPage page = .ok []) ∧
    (loads (unescape (dataPageValue page)) = none →
      metadataPage gid page = .error .jsonDecodeError ∧
      imagesPage page = .error .jsonDecodeError) := by
  constructor
  · intro h2
    refine pageDefault_results gid page h1 ?_
    unfold dataPageValue
    rw [h2]
    rfl
  · intro h2
    have hpd : extractPageData page = none := h2
    constructor
    · simp only [metadataPage, h1, Bool.false_eq_true, if_false, hpd]
    · simp only [imagesPage, hpd]

/-- The C3 theorem applied at a page with no attribute and at a page
with a malformed attribute value. -/
theorem pageScrape_missing_attr_degrades_malformed_raises_witness :
    containsStr "Not Found" "no attribute here" = false ∧
    dataPageRaw "no attribute here" = none ∧
    (metadataPage "abcdefghijk" "no attribute here" =
        Except.ok [("gallery_id", PyVal.str "abcdefghijk")] ∧
      imagesPage "no attribute here" = Except.ok []) ∧
    containsStr "Not Found" "data-page=\"x\" more" = false ∧
    loads (unescape (dataPageValue "data-page=\"x\" more")) = none ∧
    (metadataPage "abcdefghijk" "data-page=\"x\" more" = Except.error ExtErr.jsonDecodeError ∧
      imagesPage "data-page=\"x\" more" = Except.error ExtErr.jsonDecodeError) :=
  ⟨rfl, rfl,
    (pageScrape_missing_attr_degrades_malformed_raises "abcdefghijk" "no attribute here" rfl).1 rfl,
    rfl, rfl,
    (pageScrape_missing_attr_degrades_malformed_raises "abcdefghijk" "data-page=\"x\" more" rfl).2 rfl⟩

/-- Claim C10: in API mode, calling `images` on a freshly constructed
instance, before any `metadata` call, raises AttributeError because the
`_image_list` attribute does not exist yet. -/
theorem imagesApi_before_metadata_attribute_error (gid : String) :
    runImagesApi (initGState gid) = .error .attributeError := rfl

/-- Claim C4: a response with status in [300, 400) makes `_call` raise
AuthenticationError immediately, and any other response with status
≥ 400 other than 429 makes it log the raw body at debug level and raise
StopExtraction immediately; both paths issue exactly one request and
never retry, whatever responses would have followed. -/
theorem apiCall_terminal_errors_no_retry (accessToken endpoint : String)
    (r : HttpResponse) (rest : List HttpResponse)
    (h3 : 300 ≤ r.status) (h4 : r.status ≠ 429) :
    apiCall accessToken endpoint (r :: rest) =
      (if r.status < 400 then
        ([ApiEvent.request (apiRoot ++ endpoint) (authHeaders accessToken)],
         CallResult.authError "Invalid API access token")
      else
        ([ApiEvent.request (apiRoot ++ endpoint) (authHeaders accessToken),
          ApiEvent.logDebug r.body],
         CallResult.stopExtraction "API request failed")) := by
  unfold apiCall callLoop
  rw [if_neg (by omega)]
  by_cases h : r.status < 400
  · rw [if_pos h, if_pos h]
  · rw [if_neg h, if_neg h]
    have hb : (r.status == 429) = false := by
      simp [h4]
    rw [hb]
    simp

/-- The C4 theorem at a redirect status and at a server-error status. -/
theorem apiCall_terminal_errors_no_retry_witness :
    (300 ≤ 301 ∧ (301 : Nat) ≠ 429 ∧
      apiCall "T" "/v1/post/x" [⟨301, "redirect body"⟩, ⟨200, "later"⟩] =
        (if (301 : Nat) < 400 then
          ([ApiEvent.request (apiRoot ++ "/v1/post/x") (authHeaders "T")],
           CallResult.authError "Invalid API access token")
        else
          ([ApiEvent.request (apiRoot ++ "/v1/post/x") (authHeaders "T"),
            ApiEvent.logDebug "redirect body"],
           CallResult.stopExtraction "API request failed"))) ∧
    (300 ≤ 500 ∧ (500 : Nat) ≠ 429 ∧
      apiCall "T" "/v1/post/x" [⟨500, "oops"⟩] =
        (if (500 : Nat) < 400 then
          ([ApiEvent.request (apiRoot ++ "/v1/post/x") (authHeaders "T")],
           CallResult.authError "Invalid API access token")
        else
          ([ApiEvent.request (apiRoot ++ "/v1/post/x") (authHeaders "T"),
            ApiEvent.logDebug "oops"],
           CallResult.stopExtraction "API request failed"))) :=
  ⟨⟨by decide, by decide,
    apiCall_terminal_errors_no_retry "T" "/v1/post/x" ⟨301, "redirect body"⟩
      [⟨200, "later"⟩] (by decide) (by decide)⟩,
   ⟨by decide, by decide,
    apiCall_terminal_errors_no_retry "T" "/v1/post/x" ⟨500, "oops"⟩ [] (by decide) (by decide)⟩⟩

/-- Claim C9: whenever the API-mode metadata step succeeds on a post
returned by the API client's post-lookup, the returned mapping carries
`gallery_id` equal to the constructed gallery id and carries no
`image_count` key, whether or not the upstream post had one. -/
theorem metadataApi_gallery_id_no_image_count (gid : String) (post p stash : PyVal)
    (h : metadataApi gid post = .ok (p, stash)) :
    pyGet p "gallery_id" = some (PyVal.str gid) ∧ pyGet p "image_count" = none := by
  unfold metadataApi at h
  repeat' split at h
  all_goals try exact Except.noConfusion h
  all_goals
    simp only [Except.ok.injEq, Prod.mk.injEq] at h
    obtain ⟨hp, hstash⟩ := h
    subst hp
    rename_i hset
    refine ⟨?_, ?_⟩
    · rw [pyGet_popAllKey_ne _ _ _ (by decide), pyGet_popAllKey_ne _ _ _ (by decide)]
      exact pyGet_setKeyE_self _ _ _ _ hset
    · rw [pyGet_popAllKey_ne _ _ _ (by decide)]
      exact pyGet_popAllKey_self _ _

/-- The C9 theorem at a concrete post that does carry an upstream
`image_count`. -/
theorem metadataApi_gallery_id_no_image_count_witness :
    metadataApi "abcdefghijk" apiPostSample =
      Except.ok (apiPostSampleResult, PyVal.arr [apiPostSampleImage]) ∧
    (pyGet apiPostSampleResult "gallery_id" = some (PyVal.str "abcdefghijk") ∧
      pyGet apiPostSampleResult "image_count" = none) := by
  have h : metadataApi "abcdefghijk" apiPostSample =
      Except.ok (apiPostSampleResult, PyVal.arr [apiPostSampleImage]) := rfl
  exact ⟨h, metadataApi_gallery_id_no_image_count "abcdefghijk" apiPostSample
    apiPostSampleResult (PyVal.arr [apiPostSampleImage]) h⟩

/-- Claim C7: in API mode, after a successful `metadata` call on an
instance, `images` on the same instance returns exactly the image list
that the metadata call popped out of the post and stashed, in the
original order, each element paired as (its "link" field, the full
per-image mapping). -/
theorem imagesApi_returns_stashed_list (gid : String) (post p : PyVal) (st : GState)
    (stash : List PyVal)
    (_h1 : runMetadataApi (initGState gid) post = .ok (p, st))
    (h2 : st.image_list = some (PyVal.arr stash))
    (h3 : stash.all hasLink = true) :
    runImagesApi st = .ok (stash.map (fun img => (linkOf img, img))) := by
  simp only [runImagesApi, h2, pyIterate]
  exact linkPairs_of_all stash h3

/-- The C7 theorem at the concrete sample post. -/
theorem imagesApi_returns_stashed_list_witness :
    runMetadataApi (initGState "abcdefghijk") apiPostSample =
      Except.ok (apiPostSampleResult,
        { gallery_id := "abcdefghijk", image_list := some (PyVal.arr [apiPostSampleImage]) }) ∧
    GState.image_list
        { gallery_id := "abcdefghijk", image_list := some (PyVal.arr [apiPostSampleImage]) } =
      some (PyVal.arr [apiPostSampleImage]) ∧
    [apiPostSampleImage].all hasLink = true ∧
    runImagesApi
        { gallery_id := "abcdefghijk", image_list := some (PyVal.arr [apiPostSampleImage]) } =
      Except.ok ([apiPostSampleImage].map (fun img => (linkOf img, img))) := by
  have h1 : runMetadataApi (initGState "abcdefghijk") apiPostSample =
      Except.ok (apiPostSampleResult,
        { gallery_id := "abcdefghijk", image_list := some (PyVal.arr [apiPostSampleImage]) }) := rfl
  exact ⟨h1, rfl, rfl,
    imagesApi_returns_stashed_list "abcdefghijk" apiPostSample apiPostSampleResult
      { gallery_id := "abcdefghijk", image_list := some (PyVal.arr [apiPostSampleImage]) }
      [apiPostSampleImage] h1 rfl rfl⟩

/-- Claim C1: for `_call`, every 429 response causes exactly one
600-second wait followed by a retry of the identical request (same URL,
same headers), for any number of 429 responses (no retry bound); a 429
body is never parsed (the only parse event is the final response's);
and once a response with status < 300 arrives, the call returns the
"data" field of its decoded body. -/
theorem apiCall_429_wait_retry_then_data (accessToken endpoint : String)
    (rs : List HttpResponse) (final : HttpResponse) (d : PyVal)
    (h1 : rs.all (fun r => r.status == 429) = true)
    (h2 : final.status < 300)
    (h3 : responseData final.body = some d) :
    apiCall accessToken endpoint (rs ++ [final]) =
      ((rs.map (fun _ =>
          [ApiEvent.request (apiRoot ++ endpoint) (authHeaders accessToken),
           ApiEvent.wait 600])).flatten
        ++ [ApiEvent.request (apiRoot ++ endpoint) (authHeaders accessToken),
            ApiEvent.parseBody final.body],
       CallResult.success d) := by
  unfold apiCall
  induction rs with
  | nil =>
    simp only [List.nil_append, List.map_nil, List.flatten_nil, callLoop]
    rw [if_pos h2, h3]
  | cons r rest ih =>
    simp only [List.all_cons, Bool.and_eq_true, beq_iff_eq] at h1
    obtain ⟨hr, hrest⟩ := h1
    simp only [List.cons_append, callLoop, hr]
    rw [if_neg (by omega), if_neg (by omega), if_pos (by rfl)]
    rw [show rest.append [final] = rest ++ [final] from rfl, ih hrest]
    simp [List.flatten]

/-- The C1 theorem at one 429 response followed by a success. -/
theorem apiCall_429_wait_retry_then_data_witness :
    [HttpResponse.mk 429 "ignored"].all (fun r => r.status == 429) = true ∧
    (200 : Nat) < 300 ∧
    responseData "\x7b\"data\": 5\x7d" = some (PyVal.num 5) ∧
    apiCall "T" "/v1/post/x" ([HttpResponse.mk 429 "ignored"] ++ [HttpResponse.mk 200 "\x7b\"data\": 5\x7d"]) =
      (([HttpResponse.mk 429 "ignored"].map (fun _ =>
          [ApiEvent.request (apiRoot ++ "/v1/post/x") (authHeaders "T"),
           ApiEvent.wait 600])).flatten
        ++ [ApiEvent.request (apiRoot ++ "/v1/post/x") (authHeaders "T"),
            ApiEvent.parseBody "\x7b\"data\": 5\x7d"],
       CallResult.success (PyVal.num 5)) :=
  ⟨rfl, by decide, rfl,
    apiCall_429_wait_retry_then_data "T" "/v1/post/x"
      [HttpResponse.mk 429 "ignored"] (HttpResponse.mk 200 "\x7b\"data\": 5\x7d")
      (PyVal.num 5) rfl (by decide) rfl⟩

/-- Claim C8: in page-scrape metadata, an embedded post whose tags
field is the list ["a", "b", "c"] yields the single string "a,b,c"
under the "tags" key, and an embedded post with no tags field leaves
the returned metadata without any "tags" key at all. -/
theorem pageScrape_tags_join_or_absent (gid : String) (pd postv : PyVal)
    (h : pyGet2 pd "props" "post" = some postv) :
    (pyGet postv "tags" = some (PyVal.arr [PyVal.str "a", PyVal.str "b", PyVal.str "c"]) →
      getKey (metadataFromPageData gid pd) "tags" = some (PyVal.str "a,b,c")) ∧
    (pyGet postv "tags" = none →
      getKey (metadataFromPageData gid pd) "tags" = none) := by
  have hch : pyGet3 pd "props" "post" "tags" = pyGet postv "tags" := by
    unfold pyGet3
    rw [h]
    rfl
  constructor
  · intro ht
    unfold metadataFromPageData
    rw [hch, ht]
    exact getKey_setKey_self
      (List.foldl (attrStep pd) [("gallery_id", PyVal.str gid)] galleryAttrs)
      "tags" (PyVal.str "a,b,c")
  · intro ht
    unfold metadataFromPageData
    rw [hch, ht]
    rw [getKey_attrFold pd galleryAttrs _ "tags" (by decide)]
    rfl

/-- The C8 theorem at a post carrying tags ["a","b","c"] and at a post
with no tags field. -/
theorem pageScrape_tags_join_or_absent_witness :
    pyGet2 pdTagsSample "props" "post" = some postTagsSample ∧
    pyGet postTagsSample "tags" =
      some (PyVal.arr [PyVal.str "a", PyVal.str "b", PyVal.str "c"]) ∧
    getKey (metadataFromPageData "abcdefghijk" pdTagsSample) "tags" =
      some (PyVal.str "a,b,c") ∧
    pyGet2 pdNoTagsSample "props" "post" = some (PyVal.obj [("title", PyVal.str "T")]) ∧
    pyGet (PyVal.obj [("title", PyVal.str "T")]) "tags" = none ∧
    getKey (metadataFromPageData "abcdefghijk" pdNoTagsSample) "tags" = none :=
  ⟨rfl, rfl,
    (pageScrape_tags_join_or_absent "abcdefghijk" pdTagsSample postTagsSample rfl).1 rfl,
    rfl, rfl,
    (pageScrape_tags_join_or_absent "abcdefghijk" pdNoTagsSample
      (PyVal.obj [("title", PyVal.str "T")]) rfl).2 rfl⟩

theorem itemsLoop_all_next_append (user bad : String) (goods : List String)
    (p : Nat) (h : goods.all (fun b => isNextStep (itemsStep b)) = true) :
    (itemsLoop user p (goods ++ [bad])).1 =
      (pageRange p (goods.length + 1)).map (itemsParams user) ∧
    (itemsLoop user p (goods ++ [bad])).2.2 = endOfStep (itemsStep bad) := by
  induction goods generalizing p with
  | nil =>
    simp only [List.nil_append, List.length_nil, Nat.zero_add]
    cases hs : itemsStep bad <;>
      simp [itemsLoop, endOfStep, pageRange, hs]
  | cons g rest ih =>
    simp only [List.all_cons, Bool.and_eq_true] at h
    have hg : isNextStep (itemsStep g) = true := h.1
    obtain ⟨ys, hy⟩ : ∃ ys, itemsStep g = StepRes.next ys := by
      cases hsg : itemsStep g with
      | next ys => exact ⟨ys, rfl⟩
      | stop => rw [hsg] at hg; exact absurd hg (by simp [isNextStep])
      | uncaughtDecode => rw [hsg] at hg; exact absurd hg (by simp [isNextStep])
      | uncaughtYield ys => rw [hsg] at hg; exact absurd hg (by simp [isNextStep])
    have := ih (p + 1) h.2
    simp only [List.cons_append, itemsLoop, hy, List.length_cons]
    exact ⟨by simp [pageRange, this.1], this.2⟩

/-- Claim C2 as stated is false on the JSON-parse clause: a response
body that is not valid JSON makes `.json()` raise a decode error (a
ValueError subclass), which the `except (TypeError, KeyError)` clause
around the request does not catch, so the iteration ends with an
uncaught exception rather than silently. -/
theorem userItems_decode_error_not_silent :
    loads "x" = none ∧
    userItems "USER" ["x"] = ([itemsParams "USER" 1], [], ItemsEnd.decodeError) ∧
    ItemsEnd.decodeError ≠ ItemsEnd.stopped ∧
    ItemsEnd.decodeError ≠ ItemsEnd.exhausted :=
  ⟨rfl, rfl, by decide, by decide⟩

/-- Claim C2 (amended): the page parameter starts at 1 and is
incremented by exactly 1 after each successful response regardless of
result size; the iteration terminates silently the first time a
decoded body cannot be subscripted with "data" (TypeError) or lacks it
(KeyError); a body that is not valid JSON instead ends the run with an
uncaught decode error. -/
theorem userItems_page_increment_and_stop (user bad : String) (goods : List String)
    (h : goods.all (fun b => isNextStep (itemsStep b)) = true) :
    (itemsStep bad = StepRes.stop →
      (userItems user (goods ++ [bad])).1 =
        (pageRange 1 (goods.length + 1)).map (itemsParams user) ∧
      (userItems user (goods ++ [bad])).2.2 = ItemsEnd.stopped) ∧
    (itemsStep bad = StepRes.uncaughtDecode →
      (userItems user (goods ++ [bad])).1 =
        (pageRange 1 (goods.length + 1)).map (itemsParams user) ∧
      (userItems user (goods ++ [bad])).2.2 = ItemsEnd.decodeError) := by
  have base := itemsLoop_all_next_append user bad goods 1 h
  constructor
  · intro hs
    exact ⟨base.1, by
      rw [show userItems user (goods ++ [bad]) =
        itemsLoop user 1 (goods ++ [bad]) from rfl, base.2, hs]
      rfl⟩
  · intro hs
    exact ⟨base.1, by
      rw [show userItems user (goods ++ [bad]) =
        itemsLoop user 1 (goods ++ [bad]) from rfl, base.2, hs]
      rfl⟩

/-- The C2 theorem at one successful response followed by a body
lacking "data", and followed by a body that is not valid JSON. -/
theorem userItems_page_increment_and_stop_witness :
    ["\x7b\"data\": [\x7b\"link\": \"https://imgchest.com/p/abcdefghijk\"\x7d]\x7d"].all
      (fun b => isNextStep (itemsStep b)) = true ∧
    itemsStep "\x7b\x7d" = StepRes.stop ∧
    ((userItems "USER"
        (["\x7b\"data\": [\x7b\"link\": \"https://imgchest.com/p/abcdefghijk\"\x7d]\x7d"] ++ ["\x7b\x7d"])).1 =
      (pageRange 1 2).map (itemsParams "USER") ∧
     (userItems "USER"
        (["\x7b\"data\": [\x7b\"link\": \"https://imgchest.com/p/abcdefghijk\"\x7d]\x7d"] ++ ["\x7b\x7d"])).2.2 =
      ItemsEnd.stopped) ∧
    itemsStep "x" = StepRes.uncaughtDecode ∧
    ((userItems "USER"
        (["\x7b\"data\": [\x7b\"link\": \"https://imgchest.com/p/abcdefghijk\"\x7d]\x7d"] ++ ["x"])).1 =
      (pageRange 1 2).map (itemsParams "USER") ∧
     (userItems "USER"
        (["\x7b\"data\": [\x7b\"link\": \"https://imgchest.com/p/abcdefghijk\"\x7d]\x7d"] ++ ["x"])).2.2 =
      ItemsEnd.decodeError) :=
  ⟨rfl, rfl,
    (userItems_page_increment_and_stop "USER" "\x7b\x7d"
      ["\x7b\"data\": [\x7b\"link\": \"https://imgchest.com/p/abcdefghijk\"\x7d]\x7d"] rfl).1 rfl,
    rfl,
    (userItems_page_increment_and_stop "USER" "x"
      ["\x7b\"data\": [\x7b\"link\": \"https://imgchest.com/p/abcdefghijk\"\x7d]\x7d"] rfl).2 rfl⟩
